import Mathlib

/-!
Verification of the tunnel-starfield animation engine
(src/services/Starfield.js): the `Starfield` class and the `Starstream`
class it ships with.  The JavaScript is shallowly embedded: numbers are
rationals, `Math.random()` is an explicit stream `supply : ℕ → ℚ` consumed
left to right (one index per call), the 2D drawing context is a record of
the style state plus a trace of emitted drawing commands, and the
unbounded rejection-sampling loop of `Starstream.spawnStar` is given
explicit fuel, returning `none` when the fuel runs out.
-/

namespace StarfieldSim

/-- A CSS color with its alpha channel.  `'# fff'`-style hex colors carry
alpha 1; `rgba(...)` colors carry the alpha written in the source. -/
structure Color where
  r : ℚ
  g : ℚ
  b : ℚ
  a : ℚ
deriving DecidableEq

/-- `rgba(15, 23, 42, 0.2)` — the per-frame background wash of
`Starfield.clearCanvas`. -/
def slate920 : Color := ⟨15, 23, 42, 1/5⟩

/-- `rgba(15, 23, 42, 0.35)` — the stronger wash applied every 300 frames. -/
def slate935 : Color := ⟨15, 23, 42, 7/20⟩

/-- The color `'#fff'`: opaque white. -/
def whiteC : Color := ⟨255, 255, 255, 1⟩

/-- The color `'#000'`: opaque black, `Starstream`'s default `baseColor`. -/
def blackC : Color := ⟨0, 0, 0, 1⟩

/-- One drawing command issued to the 2D context.  Each command records the
style and the `globalAlpha` in force when it was issued. -/
inductive Cmd where
  | fillRect (style : Color) (alpha : ℚ) (x y w h : ℚ)
  | strokeSeg (style : Color) (alpha : ℚ) (lineWidth : ℚ) (x1 y1 x2 y2 : ℚ)
  | fillArc (style : Color) (alpha : ℚ) (x y r : ℚ)
deriving DecidableEq

/-- The mutable style state of the 2D drawing context. -/
structure Ctx where
  fillStyle : Color
  strokeStyle : Color
  globalAlpha : ℚ
  lineWidth : ℚ
deriving DecidableEq

/-- A fresh 2D context: styles default to opaque black, alpha and line
width to 1, as in the canvas specification. -/
def initCtx : Ctx := ⟨blackC, blackC, 1, 1⟩

/-- A star record: world offsets `x`, `y` from the view center, depth `z`,
base `radius`, and the `trail` of previously projected screen points
(oldest first). -/
structure Star where
  x : ℚ
  y : ℚ
  z : ℚ
  radius : ℚ
  trail : List (ℚ × ℚ)
deriving DecidableEq

/-- The perspective projection both classes apply: `k = 500 / z`,
`px = x*k + centerX`, `py = y*k + centerY` (centers are half the logical
width/height). -/
def project (width height : ℚ) (s : Star) : ℚ × ℚ :=
  let k := 500 / s.z
  (s.x * k + width / 2, s.y * k + height / 2)

/-- Squared Euclidean distance of a star's projected point from the screen
center. -/
def dist2 (width height : ℚ) (s : Star) : ℚ :=
  ((project width height s).1 - width / 2) ^ 2
    + ((project width height s).2 - height / 2) ^ 2

/-- `Math.sqrt d2 < m` decided without square roots: for `d2 ≥ 0` (always a
sum of squares here) the source's comparison holds exactly when `m` is
nonnegative and `d2 < m ^ 2`. -/
def sqrtLt (d2 m : ℚ) : Bool :=
  decide (0 ≤ m) && decide (d2 < m ^ 2)

/-- The result of one per-star step: the updated star, the next unread
index of the random stream, the context state after the star's draw calls,
and the commands those calls emitted. -/
structure StepResult where
  star : Star
  next : ℕ
  ctx : Ctx
  cmds : List Cmd
deriving DecidableEq

/-- The result of one whole frame over the star list. -/
structure FrameResult where
  stars : List Star
  next : ℕ
  ctx : Ctx
  cmds : List Cmd
deriving DecidableEq

end StarfieldSim

namespace StarfieldSim.Starfield

open StarfieldSim

/-- `Starfield.updateTrail`: push the projected point; at the hard-coded
capacity 8, shift the oldest slot out, overwrite it and push it back. -/
def updateTrail (trail : List (ℚ × ℚ)) (px py : ℚ) : List (ℚ × ℚ) :=
  if trail.length < 8 then trail ++ [(px, py)]
  else trail.drop 1 ++ [(px, py)]

/-- The body of the `for` loop of `Starfield.drawTrail`, run over the index
list `range (trail.length - 1)`: for index `i` it strokes the segment from
`trail[i+1]` to `trail[i]` with taper `t = (i+1)/trail.length`, setting
`globalAlpha := 0.5 * t` and `lineWidth := headRadius * t` on the context
before the stroke. -/
def trailLoop (trail : List (ℚ × ℚ)) (headRadius : ℚ) (c : Ctx) :
    List ℕ → Ctx × List Cmd
  | [] => (c, [])
  | i :: rest =>
    match trail.get? (i + 1), trail.get? i with
    | some p1, some p2 =>
      let t : ℚ := ((i : ℚ) + 1) / (trail.length : ℚ)
      let lw := headRadius * t
      let a := (1 / 2 : ℚ) * t
      let c' : Ctx := { c with globalAlpha := a, lineWidth := lw }
      let r := trailLoop trail headRadius c' rest
      (r.1, Cmd.strokeSeg c.strokeStyle a lw p1.1 p1.2 p2.1 p2.2 :: r.2)
    | _, _ => trailLoop trail headRadius c rest

/-- `Starfield.drawTrail`: run the segment loop, then reset
`globalAlpha := 1.0`. -/
def drawTrail (c : Ctx) (trail : List (ℚ × ℚ)) (headRadius : ℚ) :
    Ctx × List Cmd :=
  let r := trailLoop trail headRadius c (List.range (trail.length - 1))
  ({ r.1 with globalAlpha := 1 }, r.2)

/-- `Starfield.drawHead`: set `fillStyle := '#fff'` and fill a circle at the
projected point; `globalAlpha` is read but not modified. -/
def drawHead (c : Ctx) (px py radius : ℚ) : Ctx × List Cmd :=
  ({ c with fillStyle := whiteC }, [Cmd.fillArc whiteC c.globalAlpha px py radius])

/-- `Starfield.updateStar`: move the star toward the camera by `speed`; if
the new depth is below 1 respawn in place (`z := width + rand*200`,
`x`, `y` resampled from `[-maxRadius/2, maxRadius/2)`, trail cleared);
project, compute the head radius, update the trail and issue the trail and
head draw calls. -/
def updateStar (width height speed : ℚ) (supply : ℕ → ℚ) (i : ℕ)
    (c : Ctx) (s : Star) : StepResult :=
  let centerX := width / 2
  let centerY := height / 2
  let maxRadius := max width height
  let z1 := s.z - speed
  let moved : Star × ℕ :=
    if z1 < 1 then
      ({ x := (supply (i + 1) - 1 / 2) * maxRadius,
         y := (supply (i + 2) - 1 / 2) * maxRadius,
         z := width + supply i * 200,
         radius := s.radius, trail := [] }, i + 3)
    else ({ s with z := z1 }, i)
  let s1 := moved.1
  let k := 500 / s1.z
  let px := s1.x * k + centerX
  let py := s1.y * k + centerY
  let headRadius := max (s1.radius * k * (3 / 10)) (1 / 2)
  let s2 : Star := { s1 with trail := updateTrail s1.trail px py }
  let r1 := drawTrail c s2.trail headRadius
  let r2 := drawHead r1.1 px py headRadius
  ⟨s2, moved.2, r2.1, r1.2 ++ r2.2⟩

/-- `Starfield.clearCanvas`: wash the surface with `rgba(15,23,42,0.2)`,
every 300th frame wash again with `rgba(15,23,42,0.35)`, then set
`strokeStyle := '#fff'` and `globalAlpha := 1.0`. -/
def clearCanvas (width height : ℚ) (frameCounter : ℕ) (c : Ctx) :
    Ctx × List Cmd :=
  let c1 : Ctx := { c with fillStyle := slate920 }
  let ops1 := [Cmd.fillRect slate920 c1.globalAlpha 0 0 width height]
  let r2 : Ctx × List Cmd :=
    if frameCounter % 300 = 0 then
      ({ c1 with fillStyle := slate935 },
        [Cmd.fillRect slate935 c1.globalAlpha 0 0 width height])
    else (c1, [])
  ({ r2.1 with strokeStyle := whiteC, globalAlpha := 1 }, ops1 ++ r2.2)

/-- The `for (let s of this.stars) this.updateStar(s)` pass of
`Starfield.draw`, threading the context and the random stream. -/
def stepStars (width height speed : ℚ) (supply : ℕ → ℚ) :
    List Star → ℕ → Ctx → FrameResult
  | [], i, c => ⟨[], i, c, []⟩
  | s :: rest, i, c =>
    let r := updateStar width height speed supply i c s
    let rr := stepStars width height speed supply rest r.next r.ctx
    ⟨r.star :: rr.stars, rr.next, rr.ctx, r.cmds ++ rr.cmds⟩

/-- `Starfield.draw`, one frame: bump the frame counter, clear the canvas,
then step every star. -/
def drawFrame (width height speed : ℚ) (supply : ℕ → ℚ)
    (frameCounter i : ℕ) (c : Ctx) (stars : List Star) : FrameResult :=
  let fc := frameCounter + 1
  let r0 := clearCanvas width height fc c
  let r := stepStars width height speed supply stars i r0.1
  ⟨r.stars, r.next, r.ctx, r0.2 ++ r.cmds⟩

/-- One star of `Starfield.initStars`: `x`, `y` from
`[-maxRadius/2, maxRadius/2)`, `z` from `[0, width)`, radius from
`[0.5, 2)`, empty trail. -/
def mkStar (width height : ℚ) (supply : ℕ → ℚ) (i : ℕ) : Star :=
  let maxRadius := max width height
  { x := (supply i - 1 / 2) * maxRadius,
    y := (supply (i + 1) - 1 / 2) * maxRadius,
    z := supply (i + 2) * width,
    radius := supply (i + 3) * (3 / 2) + 1 / 2,
    trail := [] }

/-- `Starfield.initStars`: generate `numStars` stars, consuming four random
samples each. -/
def initStars (width height : ℚ) (supply : ℕ → ℚ) :
    ℕ → ℕ → List Star × ℕ
  | 0, i => ([], i)
  | n + 1, i =>
    let s := mkStar width height supply i
    let r := initStars width height supply n (i + 4)
    (s :: r.1, r.2)

end StarfieldSim.Starfield

namespace StarfieldSim.Starstream

open StarfieldSim

/-- The configuration of a `Starstream`, after the constructor has
destructured the caller's object with its defaults and computed
`maxRadius`.  `width` and `height` are the logical viewport dimensions
read at construction. -/
structure StreamCfg where
  width : ℚ
  height : ℚ
  speed : ℚ
  minRadius : ℚ
  starRadius : ℚ
  maxRadius : ℚ
  baseColor : Color
  starColor : Color
  trailLength : ℕ
deriving DecidableEq

/-- The constructor's defaults for a 100×100 viewport: `defaultSpeed = 7`,
`baseColor = '#000'`, `starColor = '#fff'`, `minRadius = 100`,
`maxRadius = max width height`, `trailLength = 15`, `starRadius = 1`. -/
def defaultCfg : StreamCfg :=
  ⟨100, 100, 7, 100, 1, 100, blackC, whiteC, 15⟩

/-- `Starstream.spawnStar`, with explicit fuel for the unbounded `do/while`
rejection loop: sample `x`, `y` from `[-maxRadius/2, maxRadius/2)` and `z`
from `[0, width)`, project, and re-sample while the projected point's
distance from the screen center is below `minRadius`.  `none` means the
fuel ran out before a sample was accepted. -/
def spawnStar (cfg : StreamCfg) (maxRadius : ℚ) (supply : ℕ → ℚ) :
    ℕ → ℕ → Option (Star × ℕ)
  | 0, _ => none
  | fuel + 1, i =>
    let centerX := cfg.width / 2
    let centerY := cfg.height / 2
    let x := (supply i - 1 / 2) * maxRadius
    let y := (supply (i + 1) - 1 / 2) * maxRadius
    let z := supply (i + 2) * cfg.width
    let k := 500 / z
    let px := x * k + centerX
    let py := y * k + centerY
    if sqrtLt ((px - centerX) ^ 2 + (py - centerY) ^ 2) cfg.minRadius then
      spawnStar cfg maxRadius supply fuel (i + 3)
    else
      some ({ x := x, y := y, z := z, radius := cfg.starRadius, trail := [] }, i + 3)

/-- `Starstream.updateTrail`: push the projected point; at capacity
`trailLength`, shift the oldest slot out, overwrite it and push it back. -/
def updateTrail (trailLength : ℕ) (trail : List (ℚ × ℚ)) (px py : ℚ) :
    List (ℚ × ℚ) :=
  if trail.length < trailLength then trail ++ [(px, py)]
  else trail.drop 1 ++ [(px, py)]

/-- The body of the `for` loop of `Starstream.drawTrail` (the same segment
loop as `Starfield.drawTrail`). -/
def trailLoop (trail : List (ℚ × ℚ)) (headRadius : ℚ) (c : Ctx) :
    List ℕ → Ctx × List Cmd
  | [] => (c, [])
  | i :: rest =>
    match trail.get? (i + 1), trail.get? i with
    | some p1, some p2 =>
      let t : ℚ := ((i : ℚ) + 1) / (trail.length : ℚ)
      let lw := headRadius * t
      let a := (1 / 2 : ℚ) * t
      let c' : Ctx := { c with globalAlpha := a, lineWidth := lw }
      let r := trailLoop trail headRadius c' rest
      (r.1, Cmd.strokeSeg c.strokeStyle a lw p1.1 p1.2 p2.1 p2.2 :: r.2)
    | _, _ => trailLoop trail headRadius c rest

/-- `Starstream.drawTrail`: run the segment loop, then reset
`globalAlpha := 1.0`. -/
def drawTrail (c : Ctx) (trail : List (ℚ × ℚ)) (headRadius : ℚ) :
    Ctx × List Cmd :=
  let r := trailLoop trail headRadius c (List.range (trail.length - 1))
  ({ r.1 with globalAlpha := 1 }, r.2)

/-- `Starstream.drawHead`: set `globalAlpha := alpha`, fill a circle with
`starColor`, then reset `globalAlpha := 1.0`. -/
def drawHead (starColor : Color) (c : Ctx) (px py radius alpha : ℚ) :
    Ctx × List Cmd :=
  ({ c with fillStyle := starColor, globalAlpha := 1 },
    [Cmd.fillArc starColor alpha px py radius])

/-- `Starstream.updateStar`: move the star toward the camera by `speed`; if
the new depth is below 1, `Object.assign` the star with a fresh
`spawnStar(this.maxRadius)` sample (all fields replaced); project, compute
the head radius and the proximity alpha `min (k/2) 1`, update the trail
and issue the trail and head draw calls.  `none` propagates a spawn loop
that did not finish within its fuel. -/
def updateStar (cfg : StreamCfg) (supply : ℕ → ℚ) (fuel i : ℕ)
    (c : Ctx) (s : Star) : Option StepResult :=
  let centerX := cfg.width / 2
  let centerY := cfg.height / 2
  let moved : Option (Star × ℕ) :=
    if s.z - cfg.speed < 1 then spawnStar cfg cfg.maxRadius supply fuel i
    else some ({ s with z := s.z - cfg.speed }, i)
  moved.map fun p =>
    let s1 := p.1
    let k := 500 / s1.z
    let px := s1.x * k + centerX
    let py := s1.y * k + centerY
    let headRadius := max (s1.radius * k * (1 / 2)) 1
    let alpha := min (k / 2) 1
    let s2 : Star := { s1 with trail := updateTrail cfg.trailLength s1.trail px py }
    let r1 := drawTrail c s2.trail headRadius
    let r2 := drawHead cfg.starColor r1.1 px py headRadius alpha
    ⟨s2, p.2, r2.1, r1.2 ++ r2.2⟩

/-- The `for (let s of this.stars) this.updateStar(s)` pass of
`Starstream.draw`. -/
def stepStars (cfg : StreamCfg) (supply : ℕ → ℚ) (fuel : ℕ) :
    List Star → ℕ → Ctx → Option FrameResult
  | [], i, c => some ⟨[], i, c, []⟩
  | s :: rest, i, c =>
    (updateStar cfg supply fuel i c s).bind fun r =>
      (stepStars cfg supply fuel rest r.next r.ctx).map fun rr =>
        ⟨r.star :: rr.stars, rr.next, rr.ctx, r.cmds ++ rr.cmds⟩

/-- `Starstream.draw`, one frame: fill the whole surface with `baseColor`
(at the current `globalAlpha`), set `strokeStyle := starColor` and
`globalAlpha := 1.0`, then step every star. -/
def drawFrame (cfg : StreamCfg) (supply : ℕ → ℚ) (fuel i : ℕ)
    (c : Ctx) (stars : List Star) : Option FrameResult :=
  let c1 : Ctx := { c with fillStyle := cfg.baseColor }
  let ops1 := [Cmd.fillRect cfg.baseColor c1.globalAlpha 0 0 cfg.width cfg.height]
  let c2 : Ctx := { c1 with strokeStyle := cfg.starColor, globalAlpha := 1 }
  (stepStars cfg supply fuel stars i c2).map fun r =>
    ⟨r.stars, r.next, r.ctx, ops1 ++ r.cmds⟩

/-- `Starstream.initStars`: `numStars` calls of `spawnStar(this.maxRadius)`. -/
def initStars (cfg : StreamCfg) (supply : ℕ → ℚ) (fuel : ℕ) :
    ℕ → ℕ → Option (List Star × ℕ)
  | 0, i => some ([], i)
  | n + 1, i =>
    (spawnStar cfg cfg.maxRadius supply fuel i).bind fun r =>
      (initStars cfg supply fuel n r.2).map fun rr => (r.1 :: rr.1, rr.2)

end StarfieldSim.Starstream

namespace StarfieldSim

/-- The parts of the host environment a constructor touches:
whether `document.getElementById(canvasId)` finds the canvas, and whether
`canvas.getContext('2d')` yields a context (rather than `null`). -/
structure Env where
  canvasFound : Bool
  ctxObtainable : Bool
deriving DecidableEq

/-- How a constructor fails: the explicit
`throw new Error('Canvas with id ... not found')`, or the `TypeError`
raised by `this.ctx.setTransform(...)` inside `initCanvas` when
`getContext('2d')` returned `null`. -/
inductive ConstructError where
  | canvasNotFound
  | nullCtxAccess
deriving DecidableEq

/-- An engine after a fully successful construction. -/
structure Engine where
  stars : List Star
  width : ℚ
  height : ℚ
  speed : ℚ
deriving DecidableEq

/-- What constructing over a given environment produced:
`result` is the thrown error or the constructed engine (`ok none` stands
for a constructor that never returns because `initStars`' rejection loop
spins forever), and `loopStarted` records whether `this.draw()` — the
animation loop — was ever invoked. -/
structure ConstructOutcome where
  result : Except ConstructError (Option Engine)
  loopStarted : Bool

/-- `true` exactly when construction raised an error. -/
def ConstructOutcome.failed (o : ConstructOutcome) : Bool :=
  match o.result with
  | .error _ => true
  | .ok _ => false

/-- `Starfield`'s constructor: throw if the canvas is missing; crash in
`initCanvas` if the 2D context is `null`; otherwise build the star list
and start the draw loop. -/
def Starfield.construct (env : Env) (width height : ℚ) (numStars : ℕ)
    (supply : ℕ → ℚ) : ConstructOutcome :=
  if env.canvasFound = false then ⟨.error .canvasNotFound, false⟩
  else if env.ctxObtainable = false then ⟨.error .nullCtxAccess, false⟩
  else
    let r := Starfield.initStars width height supply numStars 0
    ⟨.ok (some ⟨r.1, width, height, 5⟩), true⟩

/-- `Starstream`'s constructor: throw if the canvas is missing; crash in
`initCanvas` if the 2D context is `null`; otherwise spawn the stars (the
rejection loops may spin forever, which `ok none` records — the draw loop
is then never reached) and start the draw loop. -/
def Starstream.construct (env : Env) (cfg : Starstream.StreamCfg)
    (numStars : ℕ) (supply : ℕ → ℚ) (fuel : ℕ) : ConstructOutcome :=
  if env.canvasFound = false then ⟨.error .canvasNotFound, false⟩
  else if env.ctxObtainable = false then ⟨.error .nullCtxAccess, false⟩
  else
    match Starstream.initStars cfg supply fuel numStars 0 with
    | none => ⟨.ok none, false⟩
    | some r => ⟨.ok (some ⟨r.1, cfg.width, cfg.height, cfg.speed⟩), true⟩

/-- `spawnStar` terminates on the given stream when some fuel suffices. -/
def spawnTerminates (cfg : Starstream.StreamCfg) (maxRadius : ℚ)
    (supply : ℕ → ℚ) (i : ℕ) : Prop :=
  ∃ fuel s i', Starstream.spawnStar cfg maxRadius supply fuel i = some (s, i')

/-- The trail of a star that has been stepped `n` times since its last
(re)spawn, when the projected point of step `j` is `f j`: spawn clears the
trail, and each step appends its projected point through `updateTrail`. -/
def trailAfter (trailLength : ℕ) (f : ℕ → ℚ × ℚ) : ℕ → List (ℚ × ℚ)
  | 0 => []
  | n + 1 =>
    Starstream.updateTrail trailLength (trailAfter trailLength f n)
      (f (n + 1)).1 (f (n + 1)).2

/-- A random stream whose every third sample (the depth samples of
`spawnStar`) is `1/2` and whose coordinate samples are `9/10`: the first
candidate lands far from the screen center and is accepted at once. -/
def supplyW : ℕ → ℚ := fun j => if j % 3 = 2 then 1 / 2 else 9 / 10

/-- A sample the rejection loop accepted satisfies the loop's exit
condition: `sqrtLt d2 m = false` and `m ≥ 0` give `m ^ 2 ≤ d2`. -/
theorem sqrtLt_false_le {d2 m : ℚ} (h : sqrtLt d2 m = false) (hm : 0 ≤ m) :
    m ^ 2 ≤ d2 := by
  simp only [sqrtLt, Bool.and_eq_false_iff, decide_eq_false_iff_not, not_le, not_lt] at h
  rcases h with h | h
  · exact absurd hm (not_le.mpr h)
  · exact h

/-- Anatomy of an accepted `spawnStar` sample: the star returned by a
successful rejection loop carries the sampled coordinates of some stream
position `j`, the configured radius, an empty trail, and a projected point
the loop's dead-zone test let through. -/
theorem Starstream.spawnStar_some (cfg : Starstream.StreamCfg) (mR : ℚ)
    (supply : ℕ → ℚ) :
    ∀ (fuel i : ℕ) (s : Star) (i' : ℕ),
      Starstream.spawnStar cfg mR supply fuel i = some (s, i') →
      ∃ j, s.x = (supply j - 1 / 2) * mR ∧ s.y = (supply (j + 1) - 1 / 2) * mR
        ∧ s.z = supply (j + 2) * cfg.width ∧ s.radius = cfg.starRadius
        ∧ s.trail = []
        ∧ sqrtLt (dist2 cfg.width cfg.height s) cfg.minRadius = false := by
  intro fuel
  induction fuel with
  | zero => intro i s i' h; simp [Starstream.spawnStar] at h
  | succ n ih =>
    intro i s i' h
    simp only [Starstream.spawnStar] at h
    split at h
    · exact ih (i + 3) s i' h
    · rename_i hc
      cases h
      refine ⟨i, rfl, rfl, rfl, rfl, rfl, ?_⟩
      simpa [dist2, project] using hc

/-- One trail update from an empty trail always yields the single new
point, whatever the capacity. -/
theorem Starstream.updateTrail_nil (trailLength : ℕ) (px py : ℚ) :
    Starstream.updateTrail trailLength [] px py = [(px, py)] := by
  unfold Starstream.updateTrail
  split <;> simp

/-- Length of one trail update: a push below capacity, a shift-and-push at
or above it. -/
theorem Starstream.updateTrail_length (trailLength : ℕ) (t : List (ℚ × ℚ))
    (px py : ℚ) :
    (Starstream.updateTrail trailLength t px py).length
      = if t.length < trailLength then t.length + 1 else max t.length 1 := by
  unfold Starstream.updateTrail
  split
  · simp
  · simp
    omega

/-- Length of the trail after `n` steps from a spawn, for a positive
capacity: `min n trailLength`. -/
theorem trailAfter_length (trailLength : ℕ) (f : ℕ → ℚ × ℚ)
    (hL : 1 ≤ trailLength) :
    ∀ n, (trailAfter trailLength f n).length = min n trailLength := by
  intro n
  induction n with
  | zero => simp [trailAfter]
  | succ m ih =>
    rw [trailAfter, Starstream.updateTrail_length, ih]
    rcases lt_or_le m trailLength with hm | hm
    · rw [if_pos (by omega)]
      omega
    · rw [if_neg (by omega)]
      omega

/-- The center-sampling stream `supply ≡ 1/2` puts every candidate at the
exact screen center, so with `minRadius = 200` (and `maxRadius = 100`) the
rejection loop of `spawnStar` rejects forever: no fuel is ever enough. -/
theorem spawnStar_center_none :
    ∀ fuel i, Starstream.spawnStar ⟨100, 100, 7, 200, 1, 100, blackC, whiteC, 15⟩
      100 (fun _ => 1 / 2) fuel i = none := by
  intro fuel
  induction fuel with
  | zero => intro i; rfl
  | succ n ih =>
    intro i
    rw [Starstream.spawnStar]
    rw [if_pos (by norm_num [sqrtLt])]
    exact ih (i + 3)

/-- The segment loop of `Starfield.drawTrail` never writes `strokeStyle`. -/
theorem Starfield.trailLoop_strokeStyle (trail : List (ℚ × ℚ)) (hr : ℚ) :
    ∀ (l : List ℕ) (c : Ctx),
      (Starfield.trailLoop trail hr c l).1.strokeStyle = c.strokeStyle := by
  intro l
  induction l with
  | nil => intro c; rfl
  | cons i rest ih =>
    intro c
    rw [Starfield.trailLoop]
    rcases h1 : trail.get? (i + 1) with _ | p1 <;>
      rcases h2 : trail.get? i with _ | p2 <;>
        simp [h1, h2, ih]

/-- The commands the segment loop of `Starfield.drawTrail` emits depend on
the incoming context only through `strokeStyle`: two contexts that agree
there (whatever their `globalAlpha`, `lineWidth` or `fillStyle`) produce
the same strokes. -/
theorem Starfield.trailLoop_cmds_congr (trail : List (ℚ × ℚ)) (hr : ℚ) :
    ∀ (l : List ℕ) (c₁ c₂ : Ctx), c₁.strokeStyle = c₂.strokeStyle →
      (Starfield.trailLoop trail hr c₁ l).2 = (Starfield.trailLoop trail hr c₂ l).2 := by
  intro l
  induction l with
  | nil => intro c₁ c₂ _; rfl
  | cons i rest ih =>
    intro c₁ c₂ hS
    rw [Starfield.trailLoop, Starfield.trailLoop]
    rcases h1 : trail.get? (i + 1) with _ | p1 <;>
      rcases h2 : trail.get? i with _ | p2 <;>
        simp [h1, h2, hS]
    all_goals exact ih _ _ (by simp [hS])

/-- The segment loop of `Starstream.drawTrail` never writes `strokeStyle`. -/
theorem Starstream.streamTrailLoop_strokeStyle (trail : List (ℚ × ℚ)) (hr : ℚ) :
    ∀ (l : List ℕ) (c : Ctx),
      (Starstream.trailLoop trail hr c l).1.strokeStyle = c.strokeStyle := by
  intro l
  induction l with
  | nil => intro c; rfl
  | cons i rest ih =>
    intro c
    rw [Starstream.trailLoop]
    rcases h1 : trail.get? (i + 1) with _ | p1 <;>
      rcases h2 : trail.get? i with _ | p2 <;>
        simp [h1, h2, ih]

/-- The commands the segment loop of `Starstream.drawTrail` emits depend on
the incoming context only through `strokeStyle`. -/
theorem Starstream.streamTrailLoop_cmds_congr (trail : List (ℚ × ℚ)) (hr : ℚ) :
    ∀ (l : List ℕ) (c₁ c₂ : Ctx), c₁.strokeStyle = c₂.strokeStyle →
      (Starstream.trailLoop trail hr c₁ l).2 = (Starstream.trailLoop trail hr c₂ l).2 := by
  intro l
  induction l with
  | nil => intro c₁ c₂ _; rfl
  | cons i rest ih =>
    intro c₁ c₂ hS
    rw [Starstream.trailLoop, Starstream.trailLoop]
    rcases h1 : trail.get? (i + 1) with _ | p1 <;>
      rcases h2 : trail.get? i with _ | p2 <;>
        simp [h1, h2, hS]
    all_goals exact ih _ _ (by simp [hS])

/-- C3: for every particle at every step, the trail buffer's length never
exceeds the configured capacity, and once the particle has been stepped at
least `trailLength` times since its last (re)spawn the length is exactly
`trailLength`; `Starfield.updateTrail` is the same policy at the
hard-coded capacity 8. -/
theorem trail_capacity (L n : ℕ) (f : ℕ → ℚ × ℚ) (hL : 1 ≤ L) :
    (∀ (t : List (ℚ × ℚ)) (px py : ℚ), t.length ≤ L →
        (Starstream.updateTrail L t px py).length ≤ L)
    ∧ (∀ m, (trailAfter L f m).length = min m L)
    ∧ (L ≤ n → (trailAfter L f n).length = L)
    ∧ (∀ (t : List (ℚ × ℚ)) (px py : ℚ),
        Starfield.updateTrail t px py = Starstream.updateTrail 8 t px py) := by
  refine ⟨?_, trailAfter_length L f hL, ?_, ?_⟩
  · intro t px py ht
    rw [Starstream.updateTrail_length]
    split <;> omega
  · intro hn
    rw [trailAfter_length L f hL n]
    omega
  · intro t px py
    rfl

/-- C3 witness at capacity 4: one update of a one-point trail stays within
capacity, and a trail stepped 10 times since spawn holds exactly 4
points. -/
theorem trail_capacity_witness :
    (Starstream.updateTrail 4 [(0, 0)] 5 6).length ≤ 4
    ∧ (trailAfter 4 (fun j => ((j : ℚ), 0)) 10).length = 4 :=
  ⟨(trail_capacity 4 10 (fun j => ((j : ℚ), 0)) (by norm_num)).1 [(0, 0)] 5 6
      (by norm_num),
    (trail_capacity 4 10 (fun j => ((j : ℚ), 0)) (by norm_num)).2.2.1 (by norm_num)⟩

/-- C5: the trail update is a bounded FIFO — at capacity the new point
replaces exactly the oldest slot, keeping chronological order — and with
`trailLength = 4`, after exactly 10 steps without respawn the trail holds
the projected points of steps 7 through 10, not step 1. -/
theorem trail_fifo (L : ℕ) (t t8 : List (ℚ × ℚ)) (px py : ℚ) (f : ℕ → ℚ × ℚ)
    (hcap : t.length = L) (hcap8 : t8.length = 8) :
    Starstream.updateTrail L t px py = t.drop 1 ++ [(px, py)]
    ∧ Starfield.updateTrail t8 px py = t8.drop 1 ++ [(px, py)]
    ∧ trailAfter 4 f 10 = [f 7, f 8, f 9, f 10] := by
  refine ⟨?_, ?_, ?_⟩
  · simp only [Starstream.updateTrail]
    rw [if_neg (by omega)]
  · simp only [Starfield.updateTrail]
    rw [if_neg (by omega)]
  · simp [trailAfter, Starstream.updateTrail]

/-- C5 witness: at capacity 2 the update drops exactly the oldest point,
and the 10-step trail at capacity 4 is the points of steps 7–10. -/
theorem trail_fifo_witness :
    Starstream.updateTrail 2 [(1, 1), (2, 2)] 3 3 = [(1, 1), (2, 2)].drop 1 ++ [(3, 3)]
    ∧ trailAfter 4 (fun j => ((j : ℚ), (0 : ℚ))) 10
        = [((7 : ℚ), (0 : ℚ)), (8, 0), (9, 0), (10, 0)] := by
  have h := trail_fifo 2 [(1, 1), (2, 2)]
    [(1, 1), (2, 2), (3, 3), (4, 4), (5, 5), (6, 6), (7, 7), (8, 8)] 3 3
    (fun j => ((j : ℚ), (0 : ℚ))) rfl rfl
  exact ⟨h.1, by simpa using h.2.2⟩

/-- C1 counterexample: with `minRadius = 0` every `spawnStar` sample is
accepted immediately, and a `Math.random()` depth sample of `0` makes the
respawned depth exactly `0` — `Starstream.updateStar` can end a step with
`z = 0`, so `0 < z` does not hold after every step. -/
theorem starstream_respawn_zero_depth :
    (Starstream.updateStar ⟨100, 100, 7, 0, 1, 100, blackC, whiteC, 15⟩
        (fun _ => 0) 5 0 initCtx ⟨0, 0, 1 / 2, 1, []⟩).map (fun r => r.star.z)
      = some 0
    ∧ ¬ (0 : ℚ) < 0 := by
  constructor
  · norm_num [Starstream.updateStar, Starstream.spawnStar, sqrtLt,
      Starstream.updateTrail, Starstream.drawTrail, Starstream.trailLoop,
      Starstream.drawHead]
  · norm_num

/-- C1 as amended: after `Starfield.updateStar` the depth is strictly
positive whenever the surface width is positive and the random samples are
nonnegative (the respawn assigns `z ≥ width`); after
`Starstream.updateStar` the depth is only nonnegative, since its respawn
re-samples `z` from `[0, width)` and the sample can be `0`. -/
theorem updateStar_depth_nonneg (width height speed : ℚ) (supply : ℕ → ℚ)
    (i : ℕ) (c : Ctx) (s : Star) (cfg : Starstream.StreamCfg) (fuel i' : ℕ)
    (c' : Ctx) (s' : Star)
    (hw : 0 < width) (hcw : 0 ≤ cfg.width) (hs : ∀ j, 0 ≤ supply j) :
    0 < (Starfield.updateStar width height speed supply i c s).star.z
    ∧ (Starstream.updateStar cfg supply fuel i' c' s').elim True
        (fun r => 0 ≤ r.star.z) := by
  constructor
  · simp only [Starfield.updateStar]
    split
    · have h200 : 0 ≤ supply i * 200 := mul_nonneg (hs i) (by norm_num)
      simp
      linarith
    · rename_i hnr
      simp
      linarith [not_lt.mp hnr]
  · simp only [Starstream.updateStar]
    split
    · rcases hsp : Starstream.spawnStar cfg cfg.maxRadius supply fuel i'
        with _ | ⟨ps, pi⟩
      · simp [hsp]
      · obtain ⟨j, -, -, hz, -, -, -⟩ :=
          Starstream.spawnStar_some cfg cfg.maxRadius supply fuel i' ps pi hsp
        simp [hsp]
        rw [hz]
        exact mul_nonneg (hs _) hcw
    · rename_i hnr
      simp
      linarith [not_lt.mp hnr]

/-- C1 witness: a respawning `Starfield` star ends with positive depth and
a traveling `Starstream` star ends with nonnegative depth. -/
theorem updateStar_depth_nonneg_witness :
    0 < (Starfield.updateStar 100 100 5 (fun _ => 1 / 2) 0 initCtx
        ⟨0, 0, 3, 1, []⟩).star.z
    ∧ (Starstream.updateStar Starstream.defaultCfg (fun _ => 1 / 2) 1 0 initCtx
        ⟨0, 0, 50, 1, []⟩).elim True (fun r => 0 ≤ r.star.z) :=
  updateStar_depth_nonneg 100 100 5 (fun _ => 1 / 2) 0 initCtx ⟨0, 0, 3, 1, []⟩
    Starstream.defaultCfg 1 0 initCtx ⟨0, 0, 50, 1, []⟩ (by norm_num)
    (by norm_num [Starstream.defaultCfg]) (fun j => by norm_num)

/-- C2: every star the rejection loop of `spawnStar` returns projects, by
the same `k = 500/z` projection the loop used, to a point whose squared
distance from the screen center is at least `minRadius ^ 2` — i.e. its
distance is at least the configured minimum spawn radius. -/
theorem spawnStar_min_distance (cfg : Starstream.StreamCfg) (mR : ℚ)
    (supply : ℕ → ℚ) (fuel i : ℕ) (hm : 0 ≤ cfg.minRadius) :
    (Starstream.spawnStar cfg mR supply fuel i).elim True
      (fun p => cfg.minRadius ^ 2 ≤ dist2 cfg.width cfg.height p.1) := by
  rcases h : Starstream.spawnStar cfg mR supply fuel i with _ | ⟨ps, pi⟩
  · trivial
  · obtain ⟨j, -, -, -, -, -, hcond⟩ :=
      Starstream.spawnStar_some cfg mR supply fuel i ps pi h
    simpa using sqrtLt_false_le hcond hm

/-- C2 witness: under the default configuration a concrete accepted sample
lands at squared distance at least `100 ^ 2` from the center. -/
theorem spawnStar_min_distance_witness :
    (Starstream.spawnStar Starstream.defaultCfg 100 (fun _ => 3 / 4) 1 0).elim True
      (fun p => Starstream.defaultCfg.minRadius ^ 2
        ≤ dist2 Starstream.defaultCfg.width Starstream.defaultCfg.height p.1) :=
  spawnStar_min_distance Starstream.defaultCfg 100 (fun _ => 3 / 4) 1 0
    (by norm_num [Starstream.defaultCfg])

/-- C4 counterexample: a `Starstream` star that passed the camera respawns
through `spawnStar`, whose depth sample lies in `[0, width)` — here the
new depth is `50`, below `surfaceWidth = 100`, not in the far-plane
interval `[100, 300)` the claim asserts. -/
theorem starstream_respawn_near_interval :
    (Starstream.updateStar Starstream.defaultCfg supplyW 5 0 initCtx
        ⟨0, 0, 1 / 2, 1, []⟩).map (fun r => r.star.z) = some 50
    ∧ ¬ (100 : ℚ) ≤ 50 := by
  constructor
  · norm_num [Starstream.updateStar, Starstream.spawnStar,
      Starstream.defaultCfg, supplyW, sqrtLt, Starstream.updateTrail,
      Starstream.drawTrail, Starstream.trailLoop, Starstream.drawHead]
  · norm_num

/-- C4 as amended: on a respawn `Starfield.updateStar` assigns a depth in
the far-plane interval `[width, width + 200)`, while `Starstream`'s
respawn re-runs `spawnStar` and so assigns a depth in the initial-spawn
interval `[0, width)`. -/
theorem respawn_depth_intervals (width height speed : ℚ) (supply : ℕ → ℚ)
    (i : ℕ) (c : Ctx) (s : Star) (cfg : Starstream.StreamCfg) (fuel i' : ℕ)
    (c' : Ctx) (s' : Star)
    (hs : ∀ j, 0 ≤ supply j ∧ supply j < 1)
    (h1 : s.z - speed < 1) (h2 : s'.z - cfg.speed < 1) (hw : 0 < cfg.width) :
    (width ≤ (Starfield.updateStar width height speed supply i c s).star.z
      ∧ (Starfield.updateStar width height speed supply i c s).star.z < width + 200)
    ∧ (Starstream.updateStar cfg supply fuel i' c' s').elim True
        (fun r => 0 ≤ r.star.z ∧ r.star.z < cfg.width) := by
  constructor
  · have h200 : 0 ≤ supply i * 200 := mul_nonneg (hs i).1 (by norm_num)
    have h200' : supply i * 200 < 200 := by
      have := (hs i).2
      linarith
    simp only [Starfield.updateStar, if_pos h1]
    constructor
    · simp
      linarith
    · simp
      linarith
  · simp only [Starstream.updateStar, if_pos h2]
    rcases hsp : Starstream.spawnStar cfg cfg.maxRadius supply fuel i'
      with _ | ⟨ps, pi⟩
    · simp [hsp]
    · obtain ⟨j, -, -, hz, -, -, -⟩ :=
        Starstream.spawnStar_some cfg cfg.maxRadius supply fuel i' ps pi hsp
      simp [hsp]
      rw [hz]
      constructor
      · exact mul_nonneg (hs _).1 hw.le
      · calc supply (j + 2) * cfg.width
            < 1 * cfg.width := mul_lt_mul_of_pos_right (hs _).2 hw
          _ = cfg.width := one_mul _

/-- C4 witness: a concrete `Starfield` respawn lands in `[100, 300)` and a
concrete `Starstream` respawn lands in `[0, 100)`. -/
theorem respawn_depth_intervals_witness :
    ((100 : ℚ) ≤ (Starfield.updateStar 100 100 5 supplyW 0 initCtx
        ⟨0, 0, 3, 1, []⟩).star.z
      ∧ (Starfield.updateStar 100 100 5 supplyW 0 initCtx
        ⟨0, 0, 3, 1, []⟩).star.z < 100 + 200)
    ∧ (Starstream.updateStar Starstream.defaultCfg supplyW 5 0 initCtx
        ⟨0, 0, 1 / 2, 1, []⟩).elim True
        (fun r => 0 ≤ r.star.z ∧ r.star.z < Starstream.defaultCfg.width) :=
  respawn_depth_intervals 100 100 5 supplyW 0 initCtx ⟨0, 0, 3, 1, []⟩
    Starstream.defaultCfg 5 0 initCtx ⟨0, 0, 1 / 2, 1, []⟩
    (fun j => by unfold supplyW; split_ifs <;> norm_num)
    (by norm_num) (by norm_num [Starstream.defaultCfg])
    (by norm_num [Starstream.defaultCfg])

/-- C7: construction fails synchronously exactly when the canvas cannot be
located or its 2D context cannot be obtained (an explicit throw for the
missing canvas, the `TypeError` of `initCanvas`'s `ctx.setTransform` for a
null context), and on failure the animation loop is never started, so no
half-initialized engine ever runs. -/
theorem construct_failure_iff (env : Env) (width height : ℚ) (numStars : ℕ)
    (supply : ℕ → ℚ) (cfg : Starstream.StreamCfg) (fuel : ℕ) :
    ((Starfield.construct env width height numStars supply).failed
        = (!env.canvasFound || !env.ctxObtainable))
    ∧ ((Starfield.construct env width height numStars supply).loopStarted
        = (env.canvasFound && env.ctxObtainable))
    ∧ ((Starstream.construct env cfg numStars supply fuel).failed
        = (!env.canvasFound || !env.ctxObtainable))
    ∧ ((Starstream.construct env cfg numStars supply fuel).loopStarted
        = (env.canvasFound && env.ctxObtainable
            && (Starstream.initStars cfg supply fuel numStars 0).isSome)) := by
  obtain ⟨cf, cx⟩ := env
  rcases h : Starstream.initStars cfg supply fuel numStars 0 with _ | r <;>
    cases cf <;> cases cx <;>
      simp [Starfield.construct, Starstream.construct, ConstructOutcome.failed, h]

/-- C6 counterexample: with `minRadius = 200` greater than
`maxRadius = 100` nothing is validated and the rejection loop has no retry
cap: on the center-sampling stream `supply ≡ 1/2` (every candidate
projects to the exact screen center) no amount of fuel makes `spawnStar`
return, so the spawn operation does not terminate for every
configuration. -/
theorem spawn_rejection_nonterminating :
    (200 : ℚ) > 100
    ∧ ¬ spawnTerminates ⟨100, 100, 7, 200, 1, 100, blackC, whiteC, 15⟩ 100
        (fun _ => 1 / 2) 0 := by
  refine ⟨by norm_num, ?_⟩
  rintro ⟨fuel, s, i', h⟩
  rw [spawnStar_center_none fuel 0] at h
  exact Option.noConfusion h

/-- C6 as amended: the constructor performs no `minRadius ≤ maxRadius`
validation — with `minRadius = 200 > maxRadius = 100` construction
succeeds outright and starts the loop — and the rejection loop is not
bounded by any retry cap: on the center-sampling stream it returns for no
fuel at all. -/
theorem spawn_no_validation_unbounded :
    (Starstream.construct ⟨true, true⟩
        ⟨100, 100, 7, 200, 1, 100, blackC, whiteC, 15⟩ 1 supplyW 1).failed = false
    ∧ (Starstream.construct ⟨true, true⟩
        ⟨100, 100, 7, 200, 1, 100, blackC, whiteC, 15⟩ 1 supplyW 1).loopStarted = true
    ∧ (∀ fuel i, Starstream.spawnStar ⟨100, 100, 7, 200, 1, 100, blackC, whiteC, 15⟩
        100 (fun _ => 1 / 2) fuel i = none) := by
  refine ⟨?_, ?_, spawnStar_center_none⟩ <;>
    norm_num [Starstream.construct, Starstream.initStars, Starstream.spawnStar,
      supplyW, sqrtLt, ConstructOutcome.failed]

/-- C8 counterexample: a `Starfield` star whose depth crossed the
near-camera threshold respawns with a cleared trail, but the same step
then appends the freshly projected point, so at the end of the respawn
step the trail has length 1, not 0. -/
theorem respawn_trail_length_one :
    (Starfield.updateStar 100 100 5 (fun _ => 1 / 2) 0 initCtx
        ⟨0, 0, 3, 1, []⟩).star.trail.length = 1
    ∧ ¬ (Starfield.updateStar 100 100 5 (fun _ => 1 / 2) 0 initCtx
        ⟨0, 0, 3, 1, []⟩).star.trail.length = 0 := by
  constructor <;>
    norm_num [Starfield.updateStar, Starfield.updateTrail, Starfield.drawTrail,
      Starfield.trailLoop, Starfield.drawHead]

/-- C8 as amended: on every respawn the trail is cleared and the step's own
projected point is then appended, so a particle that respawned during a
step ends that step with a trail holding exactly one point — its new
projected position — in both classes. -/
theorem respawn_trail_single_point (width height speed : ℚ) (supply : ℕ → ℚ)
    (i : ℕ) (c : Ctx) (s : Star) (cfg : Starstream.StreamCfg) (fuel i' : ℕ)
    (c' : Ctx) (s' : Star)
    (h1 : s.z - speed < 1) (h2 : s'.z - cfg.speed < 1) :
    (Starfield.updateStar width height speed supply i c s).star.trail
      = [project width height (Starfield.updateStar width height speed supply i c s).star]
    ∧ (Starstream.updateStar cfg supply fuel i' c' s').elim True
        (fun r => r.star.trail = [project cfg.width cfg.height r.star]) := by
  constructor
  · simp only [Starfield.updateStar, if_pos h1]
    simp [Starfield.updateTrail, project]
  · simp only [Starstream.updateStar, if_pos h2]
    rcases hsp : Starstream.spawnStar cfg cfg.maxRadius supply fuel i'
      with _ | ⟨ps, pi⟩
    · simp [hsp]
    · obtain ⟨j, -, -, -, -, htrail, -⟩ :=
        Starstream.spawnStar_some cfg cfg.maxRadius supply fuel i' ps pi hsp
      simp [hsp, htrail, Starstream.updateTrail_nil, project]

/-- C8 witness: a concrete respawn step ends with the single new projected
point in each class. -/
theorem respawn_trail_single_point_witness :
    (Starfield.updateStar 100 100 5 supplyW 0 initCtx ⟨0, 0, 3, 1, []⟩).star.trail
      = [project 100 100
          (Starfield.updateStar 100 100 5 supplyW 0 initCtx ⟨0, 0, 3, 1, []⟩).star]
    ∧ (Starstream.updateStar Starstream.defaultCfg supplyW 5 0 initCtx
        ⟨0, 0, 1 / 2, 1, []⟩).elim True
        (fun r => r.star.trail
          = [project Starstream.defaultCfg.width Starstream.defaultCfg.height r.star]) :=
  respawn_trail_single_point 100 100 5 supplyW 0 initCtx ⟨0, 0, 3, 1, []⟩
    Starstream.defaultCfg 5 0 initCtx ⟨0, 0, 1 / 2, 1, []⟩ (by norm_num)
    (by norm_num [Starstream.defaultCfg])

/-- `Option.elim True` over a mapped option holds when the property holds
of every mapped value. -/
theorem elim_map_of_forall {α β : Type} (o : Option α) (f : α → β)
    (P : β → Prop) (h : ∀ x, P (f x)) : (o.map f).elim True P := by
  cases o with
  | none => trivial
  | some x => exact h x

/-- C9 counterexample: under the default configuration
(`baseColor = '#000'`, fully opaque) the single background command of a
`Starstream` frame paints the whole surface at effective opacity 1 — not
at partial opacity — erasing the previous frame completely. -/
theorem starstream_background_full_opacity :
    ((Starstream.drawFrame Starstream.defaultCfg (fun _ => 1 / 2) 1 0 initCtx []).map
      (fun r => r.cmds)) = some [Cmd.fillRect blackC 1 0 0 100 100]
    ∧ blackC.a = 1 := by
  exact ⟨by decide, rfl⟩

/-- C9 as amended: at the start of every frame, before any particle is
stepped, the first command paints the full surface with the background
color — `Starfield` with `rgba(15,23,42,0.2)`, whose alpha `0.2` is
strictly partial, while `Starstream` uses the configured `baseColor`,
which is fully opaque under the default `'#000'`. -/
theorem frame_background_alpha (width height speed : ℚ)
    (supply supply' : ℕ → ℚ) (fc i i' fuel : ℕ) (c c' : Ctx)
    (stars stars' : List Star) (cfg : Starstream.StreamCfg)
    (ha : c.globalAlpha = 1) (ha' : c'.globalAlpha = 1) :
    (Starfield.drawFrame width height speed supply fc i c stars).cmds.head?
      = some (Cmd.fillRect slate920 1 0 0 width height)
    ∧ slate920.a < 1
    ∧ (Starstream.drawFrame cfg supply' fuel i' c' stars').elim True
        (fun r => r.cmds.head?
          = some (Cmd.fillRect cfg.baseColor 1 0 0 cfg.width cfg.height)) := by
  refine ⟨?_, by norm_num [slate920], ?_⟩
  · simp [Starfield.drawFrame, Starfield.clearCanvas, ha]
  · simp only [Starstream.drawFrame]
    apply elim_map_of_forall
    intro r
    simp [ha']

/-- C9 witness: the first command of a concrete frame of each class. -/
theorem frame_background_alpha_witness :
    (Starfield.drawFrame 100 100 5 supplyW 0 0 initCtx []).cmds.head?
      = some (Cmd.fillRect slate920 1 0 0 100 100)
    ∧ slate920.a < 1
    ∧ (Starstream.drawFrame Starstream.defaultCfg supplyW 1 0 initCtx []).elim True
        (fun r => r.cmds.head?
          = some (Cmd.fillRect Starstream.defaultCfg.baseColor 1 0 0
              Starstream.defaultCfg.width Starstream.defaultCfg.height)) :=
  frame_background_alpha 100 100 5 supplyW supplyW 0 0 0 1 initCtx initCtx [] []
    Starstream.defaultCfg rfl rfl

/-- C10: the three listed rendering routines all leave `globalAlpha` at
`1.0` on return, and consequently the commands a particle's rendering
emits — its trail strokes and its head fill — do not depend on the
`globalAlpha` (nor `lineWidth`, nor `fillStyle`) state left behind by the
previously rendered particle: two contexts agreeing on `strokeStyle`
yield identical command traces. -/
theorem render_alpha_restored (c c₁ c₂ : Ctx) (trail : List (ℚ × ℚ))
    (hr px py rad a width height speed : ℚ) (supply : ℕ → ℚ) (i fuel : ℕ)
    (cfg : Starstream.StreamCfg) (s : Star)
    (hS : c₁.strokeStyle = c₂.strokeStyle) :
    (Starfield.drawTrail c trail hr).1.globalAlpha = 1
    ∧ (Starstream.drawTrail c trail hr).1.globalAlpha = 1
    ∧ (Starstream.drawHead cfg.starColor c px py rad a).1.globalAlpha = 1
    ∧ (Starfield.updateStar width height speed supply i c₁ s).cmds
        = (Starfield.updateStar width height speed supply i c₂ s).cmds
    ∧ (Starstream.updateStar cfg supply fuel i c₁ s).map (fun r => r.cmds)
        = (Starstream.updateStar cfg supply fuel i c₂ s).map (fun r => r.cmds) := by
  refine ⟨by simp [Starfield.drawTrail], by simp [Starstream.drawTrail],
    by simp [Starstream.drawHead], ?_, ?_⟩
  · simp [Starfield.updateStar, Starfield.drawTrail, Starfield.drawHead]
    rw [Starfield.trailLoop_cmds_congr _ _ _ c₁ c₂ hS]
  · simp only [Starstream.updateStar]
    rcases hm : (if s.z - cfg.speed < 1
        then Starstream.spawnStar cfg cfg.maxRadius supply fuel i
        else some ({ s with z := s.z - cfg.speed }, i)) with _ | p
    · simp [hm]
    · simp [hm, Starstream.drawTrail, Starstream.drawHead]
      rw [Starstream.streamTrailLoop_cmds_congr _ _ _ c₁ c₂ hS]

/-- C10 witness: two concrete contexts differing in `globalAlpha`,
`lineWidth` and `fillStyle` but agreeing on `strokeStyle` produce the same
rendering commands for the same star. -/
theorem render_alpha_restored_witness :
    (Starfield.drawTrail initCtx [(0, 0), (1, 1)] 2).1.globalAlpha = 1
    ∧ (Starstream.drawTrail initCtx [(0, 0), (1, 1)] 2).1.globalAlpha = 1
    ∧ (Starstream.drawHead Starstream.defaultCfg.starColor initCtx 3 4 2 (1 / 3)).1.globalAlpha = 1
    ∧ (Starfield.updateStar 100 100 5 supplyW 0 ⟨blackC, whiteC, 1 / 3, 2⟩
        ⟨0, 0, 50, 1, []⟩).cmds
        = (Starfield.updateStar 100 100 5 supplyW 0 ⟨slate920, whiteC, 1, 5⟩
        ⟨0, 0, 50, 1, []⟩).cmds
    ∧ (Starstream.updateStar Starstream.defaultCfg supplyW 5 0
        ⟨blackC, whiteC, 1 / 3, 2⟩ ⟨0, 0, 50, 1, []⟩).map (fun r => r.cmds)
        = (Starstream.updateStar Starstream.defaultCfg supplyW 5 0
        ⟨slate920, whiteC, 1, 5⟩ ⟨0, 0, 50, 1, []⟩).map (fun r => r.cmds) :=
  render_alpha_restored initCtx ⟨blackC, whiteC, 1 / 3, 2⟩ ⟨slate920, whiteC, 1, 5⟩
    [(0, 0), (1, 1)] 2 3 4 2 (1 / 3) 100 100 5 supplyW 0 5 Starstream.defaultCfg
    ⟨0, 0, 50, 1, []⟩ rfl

end StarfieldSim

